import Mathlib

/-!
Verification development for a repository of standalone Python scripts that
probe financial-data HTTP endpoints and simulate an iOS historical-data
fetch path. Python floats are modelled as rationals, Python random draws as
an explicit stream of rationals in the unit interval, Python dicts as
association lists with first-match semantics, and HTTP traffic as abstract
network outcomes (exception, timeout, or a response with status, raw text
and a possibly-failing JSON parse). Every definition is translated from the
corresponding source function and carries a pointer to the file and lines
it embeds.

The rational arithmetic of Batteries is marked irreducible, which blocks
kernel evaluation of concrete runs; the embedding is executable, so those
operations are restored to their definitional transparency here.
-/

set_option allowUnsafeReducibility true

attribute [semireducible] Rat.mul Rat.add Rat.sub Rat.div Rat.inv Rat.neg

/-! ## ios_app_simulation_test.py : data model (lines 30 to 70) -/

/-- The TestOutcome enum of ios_app_simulation_test.py lines 36 to 40. -/
inductive TestOutcome where
  | SUCCESS
  | FAILURE
  | TIMEOUT
  | RATE_LIMITED
deriving DecidableEq, Repr

/-- The HistoricalPrice dataclass of ios_app_simulation_test.py lines 43 to 53.
Prices are rationals (Python floats), the date is modelled as an integer day
number since the claims never inspect the formatted date string. -/
structure HistoricalPrice where
  date : Int
  open_price : ℚ
  high_price : ℚ
  low_price : ℚ
  close_price : ℚ
  volume : ℤ
  symbol : String
  data_source : String
deriving DecidableEq, Repr

/-- HistoricalPrice.is_valid, ios_app_simulation_test.py lines 55 to 60. -/
def HistoricalPrice.is_valid (p : HistoricalPrice) : Bool :=
  decide (0 < p.open_price) && decide (0 < p.high_price) &&
  decide (0 < p.low_price) && decide (0 < p.close_price) &&
  decide (p.low_price ≤ p.high_price) &&
  decide (p.low_price ≤ p.open_price) && decide (p.open_price ≤ p.high_price) &&
  decide (p.low_price ≤ p.close_price) && decide (p.close_price ≤ p.high_price)

/-- The CacheEntry dataclass of ios_app_simulation_test.py lines 63 to 70.
Timestamps are rationals (seconds). -/
structure CacheEntry where
  symbol : String
  data : List HistoricalPrice
  timestamp : ℚ
  expiry : ℚ
  hit_count : ℕ
deriving DecidableEq, Repr

/-! ## Randomness and rounding models -/

/-- Python max on two floats, written with an executable comparison.
It agrees with the lattice max, see pymax_eq_max. -/
def pymax (a b : ℚ) : ℚ := if a < b then b else a

/-- Python min on two floats, executable; agrees with the lattice min. -/
def pymin (a b : ℚ) : ℚ := if b < a then b else a

/-- random.uniform a b, with r the unit-interval draw behind it. -/
def uniform (a b r : ℚ) : ℚ := a + (b - a) * r

/-- random.randint a b, with r the unit-interval draw behind it. -/
def randint (a b : ℤ) (r : ℚ) : ℤ := a + (((b : ℚ) - (a : ℚ) + 1) * r).floor

/-- Round a rational to the nearest integer, ties to even: the behaviour of
the Python builtin round on an exact value. -/
def pyRoundInt (y : ℚ) : ℤ :=
  if y - (y.floor : ℚ) < 1 / 2 then y.floor
  else if 1 / 2 < y - (y.floor : ℚ) then y.floor + 1
  else if y.floor % 2 = 0 then y.floor else y.floor + 1

/-- round(x, 2): round to two decimal places, ties to even. -/
def round2 (x : ℚ) : ℚ := (pyRoundInt (100 * x) : ℚ) / 100

/-! ## ios_app_simulation_test.py : generate_historical_data (lines 134 to 165)

The Python loop consumes, per day, six random draws in this order: the
daily change, the open factor, the close factor, the high factor, the low
factor and the volume; one draw for the base price precedes the loop. The
draw stream is `rng : ℕ → ℚ` and `k` is the index of the next unconsumed
draw. `today` models datetime.now() as a day number. -/

/-- The body of the for-loop of generate_historical_data: `n` is the number
of days still to generate, so the Python loop index is `days - n`. -/
def genLoop (symbol provider : String) (today : ℤ) (rng : ℕ → ℚ) :
    ℕ → ℚ → ℕ → List HistoricalPrice
  | 0, _, _ => []
  | n + 1, base_price, k =>
    let daily_change := uniform (-5 / 100) (5 / 100) (rng k)
    let base1 := base_price * (1 + daily_change)
    let open_price := base1 * uniform (98 / 100) (102 / 100) (rng (k + 1))
    let close_price := base1 * uniform (98 / 100) (102 / 100) (rng (k + 2))
    let high_price := pymax open_price close_price * uniform 1 (103 / 100) (rng (k + 3))
    let low_price := pymin open_price close_price * uniform (97 / 100) 1 (rng (k + 4))
    let volume := randint 1000000 50000000 (rng (k + 5))
    { date := today - n,
      open_price := round2 open_price,
      high_price := round2 high_price,
      low_price := round2 low_price,
      close_price := round2 close_price,
      volume := volume,
      symbol := symbol,
      data_source := provider } :: genLoop symbol provider today rng n base1 (k + 6)

/-- generate_historical_data, ios_app_simulation_test.py lines 134 to 165. -/
def generate_historical_data (symbol : String) (days : ℕ) (provider : String)
    (today : ℤ) (rng : ℕ → ℚ) : List HistoricalPrice :=
  let base_price := uniform 50 300 (rng 0)
  genLoop symbol provider today rng days base_price 1

/-- A decidable per-record check used to state the amended form of the
validity claim: the four OHLC fields are ordered (low below open, close and
high, open and close below high), the low is nonnegative, and whenever the
stored low price is strictly positive the record passes is_valid. -/
def recordOrdered (p : HistoricalPrice) : Bool :=
  decide (0 ≤ p.low_price) &&
  decide (p.low_price ≤ p.open_price) && decide (p.open_price ≤ p.high_price) &&
  decide (p.low_price ≤ p.close_price) && decide (p.close_price ≤ p.high_price) &&
  decide (p.low_price ≤ p.high_price) &&
  (!decide (0 < p.low_price) || p.is_valid)

/-- The draw stream that always yields 0: every draw at the bottom of its
range (base price 50, daily change -5 percent, and so on). -/
def zeroRng : ℕ → ℚ := fun _ => 0

/-- The draw stream that always yields one half. -/
def halfRng : ℕ → ℚ := fun _ => 1 / 2

/-! ## ios_app_simulation_test.py : provider configuration (lines 95 to 132) -/

/-- One entry of the providers dict, ios_app_simulation_test.py lines 97 to 122. -/
structure ProviderConfig where
  name : String
  priority : ℕ
  cost_per_request : ℚ
  daily_limit : ℕ
  base_success_rate : ℚ
  avg_response_time : ℚ
  rate_limit_threshold : ℕ
deriving DecidableEq, Repr

def yahooFinance : ProviderConfig :=
  { name := "Yahoo Finance", priority := 1, cost_per_request := 0,
    daily_limit := 2000, base_success_rate := 95 / 100,
    avg_response_time := 3 / 2, rate_limit_threshold := 60 }

def eodhd : ProviderConfig :=
  { name := "EODHD", priority := 2, cost_per_request := 1 / 100,
    daily_limit := 1000, base_success_rate := 90 / 100,
    avg_response_time := 2, rate_limit_threshold := 30 }

def finnhub : ProviderConfig :=
  { name := "Finnhub", priority := 3, cost_per_request := 2 / 100,
    daily_limit := 500, base_success_rate := 85 / 100,
    avg_response_time := 5 / 2, rate_limit_threshold := 20 }

/-- The providers dict in its insertion order. -/
def providers : List ProviderConfig := [yahooFinance, eodhd, finnhub]

/-- Stable insertion by ascending priority, the order produced by
sorted(..., key=lambda x: priority). -/
def insertByPriority (c : ProviderConfig) : List ProviderConfig → List ProviderConfig
  | [] => [c]
  | d :: ds => if c.priority < d.priority then c :: d :: ds else d :: insertByPriority c ds

/-- sorted(self.providers.items(), key=lambda x: priority), line 198. -/
def sortByPriority : List ProviderConfig → List ProviderConfig
  | [] => []
  | c :: cs => insertByPriority c (sortByPriority cs)

/-- The ProviderStats dataclass, ios_app_simulation_test.py lines 73 to 81. -/
structure ProviderStats where
  name : String
  total_requests : ℕ
  successful_requests : ℕ
  failed_requests : ℕ
  total_response_time : ℚ
  rate_limit_hits : ℕ
deriving DecidableEq, Repr

/-- ProviderStats(name): the all-zero statistics each provider starts with
(line 125). -/
def initStats (n : String) : ProviderStats :=
  { name := n, total_requests := 0, successful_requests := 0,
    failed_requests := 0, total_response_time := 0, rate_limit_hits := 0 }

/-! ## Python dicts as association lists (first match wins) -/

/-- d.get(k) / d[k] on a string-keyed dict. -/
def dictGet {α : Type} : List (String × α) → String → Option α
  | [], _ => none
  | (k1, v1) :: t, k => if k1 = k then some v1 else dictGet t k

/-- d[k] = v: replace the first binding of k, else append one. -/
def dictSet {α : Type} : List (String × α) → String → α → List (String × α)
  | [], k, v => [(k, v)]
  | (k1, v1) :: t, k, v =>
    if k1 = k then (k, v) :: t else (k1, v1) :: dictSet t k v

/-- del d[k]: drop every binding of k (a dict holds it at most once). -/
def dictDel {α : Type} (l : List (String × α)) (k : String) : List (String × α) :=
  l.filter fun p => !(p.1 = k : Bool)

/-- The per-provider statistics dict self.provider_stats. -/
abbrev StatsMap := List (String × ProviderStats)

/-! ## ios_app_simulation_test.py : simulate_api_call (lines 167 to 194)

The call consumes two draws (the response time, then random.random), and a
successful call additionally consumes the draws of generate_historical_data.
It returns the (outcome, data, response_time) triple together with the
updated statistics record and the index of the next unconsumed draw. -/

def simulate_api_call (config : ProviderConfig) (stats : ProviderStats)
    (symbol : String) (days : ℕ) (today : ℤ) (rng : ℕ → ℚ) (k : ℕ) :
    (TestOutcome × List HistoricalPrice × ℚ) × ProviderStats × ℕ :=
  let base_time := config.avg_response_time
  let response_time := uniform (base_time * (1 / 2)) (base_time * (3 / 2)) (rng k)
  let random_factor := rng (k + 1)
  if stats.total_requests % config.rate_limit_threshold = 0 ∧ 0 < stats.total_requests then
    ((TestOutcome.RATE_LIMITED, [], response_time),
     { stats with rate_limit_hits := stats.rate_limit_hits + 1 }, k + 2)
  else if random_factor < 1 - config.base_success_rate then
    ((TestOutcome.FAILURE, [], response_time), stats, k + 2)
  else if 98 / 100 < random_factor then
    ((TestOutcome.TIMEOUT, [], 30), stats, k + 2)
  else
    let data := generate_historical_data symbol days config.name today
      (fun j => rng (k + 2 + j))
    ((TestOutcome.SUCCESS, data, response_time), stats, k + 2 + 1 + 6 * days)

/-! ## ios_app_simulation_test.py : fetch_with_failover (lines 196 to 223) -/

/-- One iteration of the failover loop as observed from outside: which
provider was attempted, with what outcome, data and simulated response
time. The list of attempts mirrors the per-provider statistics updates the
loop performs. -/
structure Attempt where
  provider : String
  outcome : TestOutcome
  data : List HistoricalPrice
  response_time : ℚ
deriving Repr

/-- The statistics update a successful attempt performs (lines 204 to 209):
one more total request, the response time added, one more success. -/
def succStats (stats : ProviderStats) (rt : ℚ) : ProviderStats :=
  { stats with
    total_requests := stats.total_requests + 1,
    total_response_time := stats.total_response_time + rt,
    successful_requests := stats.successful_requests + 1 }

/-- The statistics update a failed attempt performs (lines 204 to 212):
one more total request, the response time added, one more failure. -/
def failStats (stats : ProviderStats) (rt : ℚ) : ProviderStats :=
  { stats with
    total_requests := stats.total_requests + 1,
    total_response_time := stats.total_response_time + rt,
    failed_requests := stats.failed_requests + 1 }

/-- The for-loop of fetch_with_failover over the priority-sorted provider
list. The trailing rational argument carries the most recent value of the
response_time loop variable, which the final all-providers-failed return
statement reads (line 223); the statistics updates of lines 204 to 212 are
threaded through the StatsMap. The 0.1 second sleep after a rate-limited
outcome (line 216) changes no state and is not represented. -/
def failoverLoop (symbol : String) (days : ℕ) (today : ℤ) (rng : ℕ → ℚ) :
    List ProviderConfig → StatsMap → ℕ → ℚ →
    (TestOutcome × List HistoricalPrice × String × ℚ) × StatsMap × List Attempt
  | [], sm, _, last_rt => ((TestOutcome.FAILURE, [], "None", last_rt), sm, [])
  | c :: rest, sm, k, _ =>
    let r := simulate_api_call c ((dictGet sm c.name).getD (initStats c.name))
      symbol days today rng k
    if r.1.1 = TestOutcome.SUCCESS then
      ((r.1.1, r.1.2.1, c.name, r.1.2.2), dictSet sm c.name (succStats r.2.1 r.1.2.2),
       [{ provider := c.name, outcome := r.1.1, data := r.1.2.1,
          response_time := r.1.2.2 }])
    else
      let rec_r := failoverLoop symbol days today rng rest
        (dictSet sm c.name (failStats r.2.1 r.1.2.2)) r.2.2 r.1.2.2
      (rec_r.1, rec_r.2.1,
       { provider := c.name, outcome := r.1.1, data := r.1.2.1,
         response_time := r.1.2.2 } :: rec_r.2.2)

/-- fetch_with_failover, ios_app_simulation_test.py lines 196 to 223, from
an arbitrary statistics state and draw stream. On an empty provider dict
the Python code would hit an unbound loop variable; the dict always holds
the three configured providers, so the initial 0 placeholder is never
returned. -/
def fetch_with_failover (symbol : String) (days : ℕ) (today : ℤ)
    (rng : ℕ → ℚ) (sm : StatsMap) :
    (TestOutcome × List HistoricalPrice × String × ℚ) × StatsMap × List Attempt :=
  failoverLoop symbol days today rng (sortByPriority providers) sm 0 0

/-! ## ios_app_simulation_test.py : check_cache (lines 225 to 238) -/

/-- One string-keyed cache dict. -/
abbrev Cache := List (String × CacheEntry)

/-- The body of check_cache acting on the selected cache dict: a fresh entry
gets its hit_count incremented and its data returned, an expired entry is
deleted, a missing symbol leaves the cache unchanged. `now` is the value of
datetime.now() at the call. -/
def check_cache_on (now : ℚ) (cache : Cache) (symbol : String) :
    Option (List HistoricalPrice) × Cache :=
  match dictGet cache symbol with
  | some entry =>
    if now < entry.expiry then
      (some entry.data, dictSet cache symbol { entry with hit_count := entry.hit_count + 1 })
    else
      (none, dictDel cache symbol)
  | none => (none, cache)

/-- check_cache, ios_app_simulation_test.py lines 225 to 238: dispatches on
cache_type ("memory" selects the memory cache, anything else the disk
cache) and returns the possibly cached data with both updated caches. -/
def check_cache (now : ℚ) (memory_cache disk_cache : Cache)
    (symbol : String) (cache_type : String) :
    Option (List HistoricalPrice) × Cache × Cache :=
  if cache_type = "memory" then
    let r := check_cache_on now memory_cache symbol
    (r.1, r.2, disk_cache)
  else
    let r := check_cache_on now disk_cache symbol
    (r.1, memory_cache, r.2)

/-! ## Model of Python float() on decimal numerals and of str.replace -/

/-- The natural number a list of decimal digit characters denotes. -/
def natOfDigits : List Char → ℕ
  | [] => 0
  | c :: t => (c.toNat - 48) + 10 * natOfDigits t

/-- Python float(s) restricted to plain decimal numerals: an optional sign,
then digits with at most one decimal point and at least one digit. Any
other string raises ValueError in Python, here none. -/
def parseFloat (s : String) : Option ℚ :=
  let afterSign : ℚ × List Char :=
    match s.data with
    | Char.ofNat 43 :: t => (1, t)
    | Char.ofNat 45 :: t => (-1, t)
    | t => (1, t)
  let sign := afterSign.1
  let body := afterSign.2
  let intPart := body.takeWhile Char.isDigit
  let rest := body.dropWhile Char.isDigit
  match rest with
  | [] =>
    if intPart.isEmpty then none
    else some (sign * (natOfDigits intPart.reverse : ℚ))
  | Char.ofNat 46 :: fracPart =>
    if fracPart.all Char.isDigit ∧ ¬(intPart.isEmpty ∧ fracPart.isEmpty) then
      some (sign * ((natOfDigits intPart.reverse : ℚ) +
        (natOfDigits fracPart.reverse : ℚ) / (10 : ℚ) ^ fracPart.length))
    else none
  | _ => none

/-- s.replace("$", "").replace(",", ""): drop every dollar sign and comma. -/
def stripMoney (s : String) : String :=
  String.mk (s.data.filter fun c => !(c = Char.ofNat 36 ∨ c = Char.ofNat 44 : Bool))

/-- The message of the ValueError that Python float() raises on a
non-numeric string. -/
def floatError (s : String) : String :=
  "could not convert string to float: " ++ s

/-! ## Abstract HTTP outcomes for the Nasdaq probes

nasdaq_api_test.py and nasdaq_load_test.py read only these parts of a
response: the HTTP status code, the response text (for error messages), and
from the parsed JSON the fields status.rCode, message, data.companyName and
data.primaryData.lastSalePrice, each absent when any level of the chained
.get calls is missing. json() itself can raise, which the scripts catch. -/

structure NasdaqData where
  rCode : Option ℤ
  message : Option String
  companyName : Option String
  lastSalePrice : Option String
deriving DecidableEq, Repr

/-- The outcome of the single GET a Nasdaq probe issues: an exception
(timeout included, carrying str(e)), or a response whose JSON body either
parses or raises. -/
inductive NasdaqNet where
  | exn (msg : String)
  | resp (status : ℕ) (text : String) (body : Except String NasdaqData)
deriving Repr

/-- The TestResult dataclass of nasdaq_api_test.py lines 15 to 24. -/
structure TestResult where
  symbol : String
  success : Bool
  response_time : ℚ
  error_message : Option String := none
  price : Option ℚ := none
  company_name : Option String := none
  dividend_yield : Option ℚ := none
  annual_dividend : Option ℚ := none
deriving DecidableEq, Repr

/-- test_stock_quote, nasdaq_api_test.py lines 36 to 85. `net` is the
outcome of the one session.get the call issues and `rt` the measured
elapsed time. Every exception path of the Python try block (request
failure, json() failure, float() failure) lands in the except branch that
returns a failure record with error_message str(e). -/
def test_stock_quote (net : NasdaqNet) (symbol : String) (rt : ℚ) : TestResult :=
  match net with
  | NasdaqNet.exn e => { symbol := symbol, success := false, response_time := rt,
                         error_message := some e }
  | NasdaqNet.resp status text body =>
    if status ≠ 200 then
      { symbol := symbol, success := false, response_time := rt,
        error_message := some ("HTTP " ++ toString status ++ ": " ++ text.take 100) }
    else
      match body with
      | Except.error e =>
        { symbol := symbol, success := false, response_time := rt, error_message := some e }
      | Except.ok d =>
        if d.rCode ≠ some 200 then
          { symbol := symbol, success := false, response_time := rt,
            error_message := some ("API Error: " ++ d.message.getD "Unknown error") }
        else
          let price_str := stripMoney (d.lastSalePrice.getD "$0")
          if price_str = "" then
            { symbol := symbol, success := true, response_time := rt,
              price := none, company_name := d.companyName }
          else
            match parseFloat price_str with
            | some q =>
              { symbol := symbol, success := true, response_time := rt,
                price := some q, company_name := d.companyName }
            | none =>
              { symbol := symbol, success := false, response_time := rt,
                error_message := some (floatError price_str) }

/-- The result dict of fetch_stock_quote_sync, nasdaq_load_test.py. -/
structure LoadRecord where
  symbol : String
  success : Bool
  response_time : ℚ
  price : Option ℚ := none
  error : Option String := none
deriving DecidableEq, Repr

/-- fetch_stock_quote_sync, nasdaq_load_test.py lines 24 to 58. Unlike
test_stock_quote it calls float() unconditionally, so an empty cleaned
price string also raises and is caught; every non-success path except the
exception one reports the HTTP status code. -/
def fetch_stock_quote_sync (net : NasdaqNet) (symbol : String) (rt : ℚ) : LoadRecord :=
  match net with
  | NasdaqNet.exn e => { symbol := symbol, success := false, response_time := rt,
                         error := some e }
  | NasdaqNet.resp status _ body =>
    if status = 200 then
      match body with
      | Except.error e =>
        { symbol := symbol, success := false, response_time := rt, error := some e }
      | Except.ok d =>
        if d.rCode = some 200 then
          let price_str := stripMoney (d.lastSalePrice.getD "$0")
          match parseFloat price_str with
          | some q =>
            { symbol := symbol, success := true, response_time := rt, price := some q }
          | none =>
            { symbol := symbol, success := false, response_time := rt,
              error := some (floatError price_str) }
        else
          { symbol := symbol, success := false, response_time := rt,
            error := some ("HTTP " ++ toString status) }
    else
      { symbol := symbol, success := false, response_time := rt,
        error := some ("HTTP " ++ toString status) }

/-! ## Abstract HTTP outcomes for the Alpha Vantage probes

test_global_quote and single_request_test read only the "Global Quote"
entry of the response JSON, a dict of string fields; the entry can be
absent, an empty dict, or a dict with fields such as "05. price". -/

/-- The response JSON as the Alpha Vantage probes see it: none when the
"Global Quote" key is absent, otherwise the entries of its dict value. -/
abbrev AVData := Option (List (String × String))

/-- The outcome of the single session.get of an Alpha Vantage probe:
asyncio.TimeoutError, another exception, or a response whose JSON body
either parses or raises. -/
inductive AVNet where
  | timeout
  | exn (msg : String)
  | resp (status : ℕ) (body : Except String AVData)
deriving Repr

/-- The result dict of test_global_quote, alpha_vantage_integration_test.py
(raw_data is the whole response and is not represented). -/
structure AVQuoteResult where
  success : Bool
  symbol : String
  price : Option ℚ := none
  volume : Option String := none
  change : Option String := none
  change_percent : Option String := none
  error : Option String := none
  response_time_ms : Option ℚ := none
deriving DecidableEq, Repr

/-- test_global_quote, alpha_vantage_integration_test.py lines 22 to 78.
`rt` is the measured response time in milliseconds. A float() failure on a
present, truthy "05. price" value raises inside the try block and lands in
the generic except branch (error "Exception: ...", response_time_ms None),
exactly as a request exception does. -/
def test_global_quote (net : AVNet) (symbol : String) (rt : ℚ) : AVQuoteResult :=
  match net with
  | AVNet.timeout =>
    { success := false, symbol := symbol,
      error := some "Request timeout (30s)", response_time_ms := some 30000 }
  | AVNet.exn e =>
    { success := false, symbol := symbol,
      error := some ("Exception: " ++ e), response_time_ms := none }
  | AVNet.resp status body =>
    if status = 200 then
      match body with
      | Except.error e =>
        { success := false, symbol := symbol,
          error := some ("Exception: " ++ e), response_time_ms := none }
      | Except.ok none =>
        { success := false, symbol := symbol,
          error := some "Empty or invalid Global Quote response",
          response_time_ms := some rt }
      | Except.ok (some []) =>
        { success := false, symbol := symbol,
          error := some "Empty or invalid Global Quote response",
          response_time_ms := some rt }
      | Except.ok (some (e0 :: es)) =>
        let gq := e0 :: es
        match dictGet gq "05. price" with
        | none =>
          { success := true, symbol := symbol, price := none,
            volume := dictGet gq "06. volume", change := dictGet gq "09. change",
            change_percent := dictGet gq "10. change percent",
            response_time_ms := some rt }
        | some ps =>
          if ps = "" then
            { success := true, symbol := symbol, price := none,
              volume := dictGet gq "06. volume", change := dictGet gq "09. change",
              change_percent := dictGet gq "10. change percent",
              response_time_ms := some rt }
          else
            match parseFloat ps with
            | some q =>
              { success := true, symbol := symbol, price := some q,
                volume := dictGet gq "06. volume", change := dictGet gq "09. change",
                change_percent := dictGet gq "10. change percent",
                response_time_ms := some rt }
            | none =>
              { success := false, symbol := symbol,
                error := some ("Exception: " ++ floatError ps),
                response_time_ms := none }
    else
      { success := false, symbol := symbol,
        error := some ("HTTP " ++ toString status), response_time_ms := some rt }

/-- Truthiness of data.get("Global Quote", dict()) as
single_request_test evaluates it. -/
def truthyGQ : AVData → Bool
  | none => false
  | some l => !l.isEmpty

/-- The result dict of single_request_test,
alpha_vantage_performance_test.py (data_size, a length of the printed
response, and the wall-clock timestamp string are not represented; the
function keyword argument is fnName). -/
structure PerfResult where
  symbol : String
  fnName : String
  status_code : Option ℕ := none
  response_time_ms : Option ℚ := none
  success : Bool
  error : Option String := none
deriving DecidableEq, Repr

/-- single_request_test, alpha_vantage_performance_test.py lines 21 to 62.
The JSON body is parsed before any status check, so a body that raises
lands in the except branch whatever the status; in the normal path success
is exactly status == 200 together with a truthy "Global Quote" value, and
no price is parsed. -/
def single_request_test (net : AVNet) (symbol fnName : String) (rt : ℚ) : PerfResult :=
  match net with
  | AVNet.timeout =>
    { symbol := symbol, fnName := fnName, status_code := none,
      response_time_ms := some 30000, success := false, error := some "Timeout" }
  | AVNet.exn e =>
    { symbol := symbol, fnName := fnName, status_code := none,
      response_time_ms := none, success := false, error := some e }
  | AVNet.resp status body =>
    match body with
    | Except.error e =>
      { symbol := symbol, fnName := fnName, status_code := none,
        response_time_ms := none, success := false, error := some e }
    | Except.ok d =>
      { symbol := symbol, fnName := fnName, status_code := some status,
        response_time_ms := some rt,
        success := decide (status = 200) && truthyGQ d }

/-! ## nasdaq_load_test.py : summaries (lines 96 to 170)

The wall-clock timing statistics fields (avg, p95, max response time and
requests per second) depend on measured floats and are not represented;
the counting fields the claims are about are. -/

/-- The counting fields of the result dict of run_concurrent_test and
run_async_test. -/
structure LoadSummary where
  total_time : ℚ
  total_requests : ℕ
  successful_requests : ℕ
  failed_requests : ℕ
  success_rate : ℚ
deriving DecidableEq, Repr

/-- run_concurrent_test, nasdaq_load_test.py lines 96 to 130: one future is
submitted per symbol (duplicates included, the dict is keyed by future),
each future yields one record, and the summary counts them. as_completed
permutes the records but every counting field is order-independent, so the
submission order is used. `fetch` abstracts fetch_stock_quote_sync with its
network outcome. -/
def run_concurrent_test (fetch : String → LoadRecord) (symbols : List String)
    (total_time : ℚ) : LoadSummary :=
  let results := symbols.map fetch
  let successful := results.filter fun r => r.success
  let failed := results.filter fun r => !r.success
  { total_time := total_time,
    total_requests := results.length,
    successful_requests := successful.length,
    failed_requests := failed.length,
    success_rate := (successful.length : ℚ) / (results.length : ℚ) * 100 }

/-- The valid_results filter of run_async_test, line 153: keep the gathered
results that are dicts and drop the ones that are exceptions. -/
def validResults (gathered : List (Except String LoadRecord)) : List LoadRecord :=
  gathered.filterMap fun g => match g with
    | Except.ok r => some r
    | Except.error _ => none

/-- run_async_test, nasdaq_load_test.py lines 132 to 170: asyncio.gather
with return_exceptions=True yields one entry per symbol, exceptions
included; the summary counts only the dict entries, and reports rate 0 when
none survive. -/
def run_async_test (gathered : List (Except String LoadRecord))
    (total_time : ℚ) : LoadSummary :=
  let valid := validResults gathered
  let successful := valid.filter fun r => r.success
  let failed := valid.filter fun r => !r.success
  { total_time := total_time,
    total_requests := valid.length,
    successful_requests := successful.length,
    failed_requests := failed.length,
    success_rate :=
      if valid.isEmpty then 0
      else (successful.length : ℚ) / (valid.length : ℚ) * 100 }

/-! ## alpha_vantage_integration_test.py : request counting (lines 179 to 236)

run_comprehensive_test is embedded through the evolution of
self.request_count alone: the claim is about the request budget, and no
other state feeds back into it. max_requests is the literal 25 set in
__init__ (line 19). The returned list records request_count after each
increment, in order. -/

/-- The Global Quote loop, lines 179 to 204: one request and one increment
per symbol, then break as soon as the count has reached 25. -/
def quoteLoopCounts : List String → ℕ → List ℕ × ℕ
  | [], c => ([], c)
  | _ :: rest, c =>
    let c1 := c + 1
    if 25 ≤ c1 then ([c1], c1)
    else
      let r := quoteLoopCounts rest c1
      (c1 :: r.1, r.2)

/-- The dividends loop, lines 214 to 236: break before the request when the
count has reached 25, else one request and one increment. -/
def dividendLoopCounts : List String → ℕ → List ℕ × ℕ
  | [], c => ([], c)
  | _ :: rest, c =>
    if 25 ≤ c then ([], c)
    else
      let c1 := c + 1
      let r := dividendLoopCounts rest c1
      (c1 :: r.1, r.2)

/-- The request_count trace of one run of run_comprehensive_test starting
from the fresh counter of __init__: the quote loop over all symbols, then,
only if the budget is not exhausted (line 207), the dividend loop over the
first three symbols (line 212). -/
def runComprehensiveTestCounts (symbols : List String) : List ℕ × ℕ :=
  let q := quoteLoopCounts symbols 0
  if q.2 < 25 then
    let d := dividendLoopCounts (symbols.take 3) q.2
    (q.1 ++ d.1, d.2)
  else q

/-! ## The ten scripts: observable effects

The repository is ten standalone scripts; the spec makes per-script claims
about their input/output behaviour (HTTP traffic, latency measurement,
report printing, file writing). These are static properties of straight
line code, embedded as a table read off each file; the doc comment of each
table entry names the evidence. -/

/-- The ten files of the repository. -/
inductive Script where
  | alpha_vantage_integration_test
  | alpha_vantage_performance_test
  | api_test_validation
  | comprehensive_historical_data_test
  | direct_api_endpoint_test
  | ios_app_simulation_test
  | nasdaq_api_test
  | nasdaq_load_test
  | targeted_api_test
  | validate_swift_integration
deriving DecidableEq, Repr

/-- Whether the script constructs an HTTP session object (requests.Session
or aiohttp.ClientSession). validate_swift_integration.py calls bare
requests.get only, comprehensive_historical_data_test.py shells out to
xcodebuild, and ios_app_simulation_test.py only draws random numbers. -/
def opens_http_session : Script → Bool
  | Script.alpha_vantage_integration_test => true
  | Script.alpha_vantage_performance_test => true
  | Script.api_test_validation => true
  | Script.comprehensive_historical_data_test => false
  | Script.direct_api_endpoint_test => true
  | Script.ios_app_simulation_test => false
  | Script.nasdaq_api_test => true
  | Script.nasdaq_load_test => true
  | Script.targeted_api_test => true
  | Script.validate_swift_integration => false

/-- Whether the script issues any HTTP request when run.
ios_app_simulation_test.py imports no HTTP library and simulates every
call with random draws; comprehensive_historical_data_test.py only runs
xcodebuild subprocesses and simulations. -/
def issues_http_requests : Script → Bool
  | Script.comprehensive_historical_data_test => false
  | Script.ios_app_simulation_test => false
  | _ => true

/-- Whether the script measures the latency of its HTTP requests (a
time.time() pair around a request). api_test_validation.py,
targeted_api_test.py and validate_swift_integration.py contain no
time.time() call at all. -/
def measures_request_latency : Script → Bool
  | Script.alpha_vantage_integration_test => true
  | Script.alpha_vantage_performance_test => true
  | Script.api_test_validation => false
  | Script.comprehensive_historical_data_test => false
  | Script.direct_api_endpoint_test => true
  | Script.ios_app_simulation_test => false
  | Script.nasdaq_api_test => true
  | Script.nasdaq_load_test => true
  | Script.targeted_api_test => false
  | Script.validate_swift_integration => false

/-- Every script prints a formatted report to the console. -/
def prints_report : Script → Bool
  | _ => true

/-- Whether the script writes any local file: each of the first eight has
open(..., "w") calls; targeted_api_test.py and validate_swift_integration.py
have none. -/
def writes_local_file : Script → Bool
  | Script.targeted_api_test => false
  | Script.validate_swift_integration => false
  | _ => true

/-- The per-script conjunction that the spec sentence behind claim C2
asserts of every script. -/
def claimEveryScriptIO (s : Script) : Bool :=
  opens_http_session s && issues_http_requests s && measures_request_latency s &&
  prints_report s && writes_local_file s

/-- One open() call site of a script: the mode string passed, whether the
filename embeds a strftime timestamp, and the filename pattern (TIMESTAMP
standing for the embedded timestamp). Every call site is in straight-line
reporting code that runs at most once per run. -/
structure FileOp where
  mode : String
  timestamped : Bool
  namePattern : String
deriving DecidableEq, Repr

/-- Every open() call of each script (the full scan of the sources): all in
mode "w". -/
def file_writes : Script → List FileOp
  | Script.alpha_vantage_integration_test =>
    [{ mode := "w", timestamped := true,
       namePattern := "alpha_vantage_test_results_TIMESTAMP.json" }]
  | Script.alpha_vantage_performance_test =>
    [{ mode := "w", timestamped := true,
       namePattern := "alpha_vantage_performance_results_TIMESTAMP.json" }]
  | Script.api_test_validation =>
    [{ mode := "w", timestamped := true,
       namePattern := "api_validation_report_TIMESTAMP.json" }]
  | Script.comprehensive_historical_data_test =>
    [{ mode := "w", timestamped := true,
       namePattern := "historical_data_test_results_TIMESTAMP.json" },
     { mode := "w", timestamped := true,
       namePattern := "HISTORICAL_DATA_TEST_REPORT_TIMESTAMP.md" }]
  | Script.direct_api_endpoint_test =>
    [{ mode := "w", timestamped := true,
       namePattern := "direct_api_test_results_TIMESTAMP.json" },
     { mode := "w", timestamped := true,
       namePattern := "DIRECT_API_TEST_REPORT_TIMESTAMP.md" }]
  | Script.ios_app_simulation_test =>
    [{ mode := "w", timestamped := true,
       namePattern := "ios_historical_data_test_results_TIMESTAMP.json" },
     { mode := "w", timestamped := true,
       namePattern := "IOS_HISTORICAL_DATA_TEST_REPORT_TIMESTAMP.md" }]
  | Script.nasdaq_api_test =>
    [{ mode := "w", timestamped := false,
       namePattern := "nasdaq_api_test_report.json" }]
  | Script.nasdaq_load_test =>
    [{ mode := "w", timestamped := false,
       namePattern := "nasdaq_load_test_report.json" }]
  | Script.targeted_api_test => []
  | Script.validate_swift_integration => []

/-- The file-read operations of each script: the scan finds no open() in a
read mode, no json.load from a file, and no .read() or read_text anywhere. -/
def file_reads : Script → List FileOp
  | _ => []

/-! ## Single-request wrappers

Each per-request fetch function performs exactly one GET per call. To state
the no-retry property, each is wrapped over a stream of would-be network
outcomes for successive requests: the call consumes the first outcome and
reads no other. -/

/-- fetch_stock_quote_sync over a stream of outcomes: one request. -/
def fetch_stock_quote_sync_run (nets : ℕ → NasdaqNet) (symbol : String) (rt : ℚ) :
    LoadRecord :=
  fetch_stock_quote_sync (nets 0) symbol rt

/-- test_stock_quote over a stream of outcomes: one request. -/
def test_stock_quote_run (nets : ℕ → NasdaqNet) (symbol : String) (rt : ℚ) :
    TestResult :=
  test_stock_quote (nets 0) symbol rt

/-- test_global_quote over a stream of outcomes: one request. -/
def test_global_quote_run (anets : ℕ → AVNet) (symbol : String) (rt : ℚ) :
    AVQuoteResult :=
  test_global_quote (anets 0) symbol rt

/-! # Theorems -/

/-! ## Rounding and ordering helpers -/

theorem pymax_eq_max (a b : ℚ) : pymax a b = max a b := by
  unfold pymax
  rcases lt_or_ge a b with h | h
  · rw [if_pos h, max_eq_right h.le]
  · rw [if_neg (not_lt.mpr h), max_eq_left h]

theorem pymin_eq_min (a b : ℚ) : pymin a b = min a b := by
  unfold pymin
  rcases lt_or_ge b a with h | h
  · rw [if_pos h, min_eq_right h.le]
  · rw [if_neg (not_lt.mpr h), min_eq_left h]

/-- Rat.floor is the mathematical floor; the executable spelling is kept in
the definitions so that concrete runs evaluate inside the kernel. -/
theorem ratFloor_eq_floor (q : ℚ) : q.floor = ⌊q⌋ := by
  rw [Rat.floor_def]
  unfold Rat.floor
  split
  · rename_i h
    rw [h]
    simp
  · rfl

theorem pyRoundInt_ge_floor (y : ℚ) : ⌊y⌋ ≤ pyRoundInt y := by
  unfold pyRoundInt
  rw [ratFloor_eq_floor]
  split_ifs <;> omega

theorem pyRoundInt_le_floor_add_one (y : ℚ) : pyRoundInt y ≤ ⌊y⌋ + 1 := by
  unfold pyRoundInt
  rw [ratFloor_eq_floor]
  split_ifs <;> omega

theorem pyRoundInt_mono {x y : ℚ} (h : x ≤ y) : pyRoundInt x ≤ pyRoundInt y := by
  by_cases hf : ⌊x⌋ = ⌊y⌋
  · have hxy : x - (⌊y⌋ : ℚ) ≤ y - (⌊y⌋ : ℚ) := by linarith
    unfold pyRoundInt
    rw [ratFloor_eq_floor, ratFloor_eq_floor, hf]
    split_ifs <;> first | omega | (exfalso; linarith)
  · have hlt : ⌊x⌋ < ⌊y⌋ := lt_of_le_of_ne (Int.floor_le_floor h) hf
    calc pyRoundInt x ≤ ⌊x⌋ + 1 := pyRoundInt_le_floor_add_one x
      _ ≤ ⌊y⌋ := by omega
      _ ≤ pyRoundInt y := pyRoundInt_ge_floor y

theorem round2_mono {x y : ℚ} (h : x ≤ y) : round2 x ≤ round2 y := by
  unfold round2
  have h1 : pyRoundInt (100 * x) ≤ pyRoundInt (100 * y) :=
    pyRoundInt_mono (by linarith)
  have h2 : ((pyRoundInt (100 * x) : ℚ)) ≤ ((pyRoundInt (100 * y) : ℚ)) := by
    exact_mod_cast h1
  linarith

theorem round2_zero : round2 0 = 0 := by decide

theorem round2_nonneg {x : ℚ} (h : 0 ≤ x) : 0 ≤ round2 x := by
  have := round2_mono h
  rwa [round2_zero] at this

/-! ## Claim C4 : generated data validity -/

theorem recordOrdered_ohlc (o c u3 u4 : ℚ) (d v : ℤ) (sym src : String)
    (ho : 0 < o) (hc : 0 < c) (hu3 : 1 ≤ u3) (hu4a : 0 ≤ u4) (hu4b : u4 ≤ 1) :
    recordOrdered
      { date := d, open_price := round2 o,
        high_price := round2 (pymax o c * u3),
        low_price := round2 (pymin o c * u4),
        close_price := round2 c, volume := v,
        symbol := sym, data_source := src } = true := by
  have hminpos : 0 < pymin o c := by
    rw [pymin_eq_min]
    exact lt_min ho hc
  have hmaxnn : 0 ≤ pymax o c := by
    rw [pymax_eq_max]
    exact le_trans ho.le (le_max_left o c)
  have hl_min : pymin o c * u4 ≤ pymin o c := mul_le_of_le_one_right hminpos.le hu4b
  have hl_nn : 0 ≤ pymin o c * u4 := mul_nonneg hminpos.le hu4a
  have hl_o : pymin o c * u4 ≤ o := by
    refine le_trans hl_min ?_
    rw [pymin_eq_min]
    exact min_le_left o c
  have hl_c : pymin o c * u4 ≤ c := by
    refine le_trans hl_min ?_
    rw [pymin_eq_min]
    exact min_le_right o c
  have hmax_h : pymax o c ≤ pymax o c * u3 := le_mul_of_one_le_right hmaxnn hu3
  have ho_h : o ≤ pymax o c * u3 := by
    refine le_trans ?_ hmax_h
    rw [pymax_eq_max]
    exact le_max_left o c
  have hc_h : c ≤ pymax o c * u3 := by
    refine le_trans ?_ hmax_h
    rw [pymax_eq_max]
    exact le_max_right o c
  have hl_h : pymin o c * u4 ≤ pymax o c * u3 := le_trans hl_o ho_h
  have R0 : (0 : ℚ) ≤ round2 (pymin o c * u4) := round2_nonneg hl_nn
  have R1 := round2_mono hl_o
  have R2 := round2_mono hl_c
  have R3 := round2_mono ho_h
  have R4 := round2_mono hc_h
  have R5 := round2_mono hl_h
  simp only [recordOrdered, Bool.and_eq_true, decide_eq_true_eq, and_assoc]
  refine ⟨R0, R1, R3, R2, R4, R5, ?_⟩
  rcases lt_or_le 0 (round2 (pymin o c * u4)) with hpos | hle
  · have hval : HistoricalPrice.is_valid
        { date := d, open_price := round2 o,
          high_price := round2 (pymax o c * u3),
          low_price := round2 (pymin o c * u4),
          close_price := round2 c, volume := v,
          symbol := sym, data_source := src } = true := by
      simp only [HistoricalPrice.is_valid, Bool.and_eq_true, decide_eq_true_eq, and_assoc]
      exact ⟨lt_of_lt_of_le hpos R1, lt_of_lt_of_le hpos R5, hpos,
        lt_of_lt_of_le hpos R2, R5, R1, R3, R2, R4⟩
    simp [hval]
  · have hdec : decide (0 < round2 (pymin o c * u4)) = false :=
      decide_eq_false (not_lt.mpr hle)
    simp [hdec]

theorem genLoop_all_ordered (symbol provider : String) (today : ℤ) (rng : ℕ → ℚ)
    (hr : ∀ i, 0 ≤ rng i ∧ rng i ≤ 1) :
    ∀ (n : ℕ) (base : ℚ) (k : ℕ), 0 < base →
      (genLoop symbol provider today rng n base k).all recordOrdered = true := by
  intro n
  induction n with
  | zero =>
    intro base k _
    rfl
  | succ m ih =>
    intro base k hb
    have hbase1 : 0 < base * (1 + uniform (-5 / 100) (5 / 100) (rng k)) := by
      have hk := hr k
      have hfac : 0 < 1 + uniform (-5 / 100) (5 / 100) (rng k) := by
        unfold uniform
        nlinarith [hk.1, hk.2]
      exact mul_pos hb hfac
    have ho : 0 < base * (1 + uniform (-5 / 100) (5 / 100) (rng k)) *
        uniform (98 / 100) (102 / 100) (rng (k + 1)) := by
      have h1 := hr (k + 1)
      refine mul_pos hbase1 ?_
      unfold uniform
      nlinarith [h1.1]
    have hc : 0 < base * (1 + uniform (-5 / 100) (5 / 100) (rng k)) *
        uniform (98 / 100) (102 / 100) (rng (k + 2)) := by
      have h2 := hr (k + 2)
      refine mul_pos hbase1 ?_
      unfold uniform
      nlinarith [h2.1]
    have hu3 : 1 ≤ uniform 1 (103 / 100) (rng (k + 3)) := by
      have h3 := hr (k + 3)
      unfold uniform
      nlinarith [h3.1]
    have hu4a : 0 ≤ uniform (97 / 100) 1 (rng (k + 4)) := by
      have h4 := hr (k + 4)
      unfold uniform
      nlinarith [h4.1, h4.2]
    have hu4b : uniform (97 / 100) 1 (rng (k + 4)) ≤ 1 := by
      have h4 := hr (k + 4)
      unfold uniform
      nlinarith [h4.2]
    simp only [genLoop, List.all_cons, Bool.and_eq_true]
    exact ⟨recordOrdered_ohlc _ _ _ _ _ _ _ _ ho hc hu3 hu4a hu4b, ih _ _ hbase1⟩

set_option maxRecDepth 200000

/-- Claim C4, counterexample: at 180 days with every draw at the bottom of
its range the base price decays by five percent a day from 50, the late
records round to 0.00, and is_valid fails on them, so not every generated
record is valid. -/
theorem C4_counterexample_not_all_valid :
    ((generate_historical_data "AAPL" 180 "Yahoo Finance" 0 zeroRng).all
      HistoricalPrice.is_valid) = false := by decide

/-- Claim C4 (amended): for every symbol, day count, provider, clock value
and sequence of unit-interval random draws, every record returned by
generate_historical_data satisfies the rounded ordering constraints
(low_price at most open_price, close_price and high_price; open_price and
close_price at most high_price; low_price nonnegative), and every record
whose rounded low_price is strictly positive satisfies is_valid(); strict
positivity of all four prices can fail, since rounding to two decimals
sends small enough prices to zero. -/
theorem C4_amended_generate_historical_data_ordered
    (symbol : String) (days : ℕ) (provider : String) (today : ℤ)
    (rng : ℕ → ℚ) (hr : ∀ i, 0 ≤ rng i ∧ rng i ≤ 1) :
    (generate_historical_data symbol days provider today rng).all recordOrdered = true := by
  simp only [generate_historical_data]
  refine genLoop_all_ordered symbol provider today rng hr days _ 1 ?_
  have h0 := hr 0
  unfold uniform
  nlinarith [h0.1]

/-- Claim C4, witness for the amended theorem at a concrete input. -/
theorem C4_witness_ordered :
    (generate_historical_data "AAPL" 2 "Yahoo Finance" 0 halfRng).all recordOrdered = true :=
  C4_amended_generate_historical_data_ordered "AAPL" 2 "Yahoo Finance" 0 halfRng
    (fun _ => by constructor <;> norm_num [halfRng])

/-! ## Claim C7 : cache freshness -/

theorem dictGet_dictSet_self {α : Type} (l : List (String × α)) (k : String) (v : α) :
    dictGet (dictSet l k v) k = some v := by
  induction l with
  | nil => simp [dictSet, dictGet]
  | cons p t ih =>
    rcases p with ⟨k1, v1⟩
    by_cases h : k1 = k
    · simp [dictSet, h, dictGet]
    · simp [dictSet, h, dictGet, ih]

theorem dictGet_dictDel_self {α : Type} (l : List (String × α)) (k : String) :
    dictGet (dictDel l k) k = none := by
  induction l with
  | nil => rfl
  | cons p t ih =>
    rcases p with ⟨k1, v1⟩
    by_cases h : k1 = k
    · simpa [dictDel, List.filter_cons, h] using ih
    · simpa [dictDel, List.filter_cons, h, dictGet] using ih

/-- The freshness clauses for the body of check_cache acting on one cache
dict: a price list is returned exactly on an unexpired entry, a hit
increments hit_count, an expired entry is deleted, a miss changes nothing,
and afterwards no expired entry for the symbol remains. -/
theorem check_cache_on_spec (now : ℚ) (cache : Cache) (symbol : String) :
    ((check_cache_on now cache symbol).1.isSome = true ↔
      ∃ e, dictGet cache symbol = some e ∧ now < e.expiry)
    ∧ (∀ e, dictGet cache symbol = some e → now < e.expiry →
        (check_cache_on now cache symbol).1 = some e.data ∧
        dictGet (check_cache_on now cache symbol).2 symbol =
          some { e with hit_count := e.hit_count + 1 })
    ∧ (∀ e, dictGet cache symbol = some e → ¬now < e.expiry →
        (check_cache_on now cache symbol).1 = none ∧
        dictGet (check_cache_on now cache symbol).2 symbol = none)
    ∧ (dictGet cache symbol = none →
        (check_cache_on now cache symbol).1 = none ∧
        (check_cache_on now cache symbol).2 = cache)
    ∧ (∀ e, dictGet (check_cache_on now cache symbol).2 symbol = some e →
        now < e.expiry) := by
  rcases hg : dictGet cache symbol with _ | e
  · have hr : check_cache_on now cache symbol = (none, cache) := by
      unfold check_cache_on
      rw [hg]
    rw [hr]
    refine ⟨by simp [hg], ?_, ?_, fun _ => ⟨rfl, rfl⟩, ?_⟩
    · intro e1 he1
      cases he1
    · intro e1 he1
      cases he1
    · intro e1 he1
      have he2 : dictGet cache symbol = some e1 := he1
      rw [hg] at he2
      cases he2
  · by_cases hexp : now < e.expiry
    · have hr : check_cache_on now cache symbol =
          (some e.data, dictSet cache symbol { e with hit_count := e.hit_count + 1 }) := by
        unfold check_cache_on
        rw [hg]
        simp [hexp]
      rw [hr]
      refine ⟨⟨fun _ => ⟨e, rfl, hexp⟩, fun _ => rfl⟩, ?_, ?_, ?_, ?_⟩
      · intro e1 he1 _
        cases he1
        exact ⟨rfl, dictGet_dictSet_self cache symbol _⟩
      · intro e1 he1 hn
        cases he1
        exact absurd hexp hn
      · intro h0
        cases h0
      · intro e1 he1
        rw [dictGet_dictSet_self] at he1
        cases he1
        simpa using hexp
    · have hr : check_cache_on now cache symbol = (none, dictDel cache symbol) := by
        unfold check_cache_on
        rw [hg]
        simp [hexp]
      rw [hr]
      refine ⟨?_, ?_, ?_, ?_, ?_⟩
      · simp only [Option.isSome_none]
        constructor
        · intro h0
          cases h0
        · rintro ⟨e1, he1, hlt⟩
          cases he1
          exact absurd hlt hexp
      · intro e1 he1 hlt
        cases he1
        exact absurd hlt hexp
      · intro e1 he1 _
        exact ⟨rfl, dictGet_dictDel_self cache symbol⟩
      · intro h0
        cases h0
      · intro e1 he1
        rw [dictGet_dictDel_self] at he1
        cases he1

/-- Claim C7: check_cache never returns expired data. For every call time,
pair of caches, symbol and cache type: the call returns a price list
exactly when the consulted cache holds an entry for the symbol whose
expiry is strictly in the future; on such a hit it returns that entry's
data and increments its hit_count; an expired entry is deleted and None
returned; a missing symbol leaves the consulted cache unchanged; after
the call the consulted cache holds no expired entry for the symbol; and
the other cache is untouched. -/
theorem C7_check_cache_no_expired (now : ℚ) (memory_cache disk_cache : Cache)
    (symbol cache_type : String) :
    let consulted := if cache_type = "memory" then memory_cache else disk_cache
    let r := check_cache now memory_cache disk_cache symbol cache_type
    let consulted1 := if cache_type = "memory" then r.2.1 else r.2.2
    ((r.1.isSome = true ↔ ∃ e, dictGet consulted symbol = some e ∧ now < e.expiry)
    ∧ (∀ e, dictGet consulted symbol = some e → now < e.expiry →
        r.1 = some e.data ∧
        dictGet consulted1 symbol = some { e with hit_count := e.hit_count + 1 })
    ∧ (∀ e, dictGet consulted symbol = some e → ¬now < e.expiry →
        r.1 = none ∧ dictGet consulted1 symbol = none)
    ∧ (dictGet consulted symbol = none → r.1 = none ∧ consulted1 = consulted)
    ∧ (∀ e, dictGet consulted1 symbol = some e → now < e.expiry)
    ∧ (if cache_type = "memory" then r.2.2 = disk_cache else r.2.1 = memory_cache)) := by
  by_cases hct : cache_type = "memory"
  · subst hct
    have h := check_cache_on_spec now memory_cache symbol
    exact ⟨h.1, h.2.1, h.2.2.1, h.2.2.2.1, h.2.2.2.2, rfl⟩
  · have h := check_cache_on_spec now disk_cache symbol
    simp only [check_cache, if_neg hct]
    exact ⟨h.1, h.2.1, h.2.2.1, h.2.2.2.1, h.2.2.2.2, trivial⟩

/-! ## Claim C8 : the request budget of run_comprehensive_test -/

theorem quoteLoopCounts_bounded :
    ∀ (syms : List String) (c : ℕ), c ≤ 24 →
      (∀ x ∈ (quoteLoopCounts syms c).1, x ≤ 25) ∧ (quoteLoopCounts syms c).2 ≤ 25 := by
  intro syms
  induction syms with
  | nil =>
    intro c hc
    simp only [quoteLoopCounts]
    exact ⟨(by intro x hx; cases hx), by omega⟩
  | cons s rest ih =>
    intro c hc
    by_cases hb : 25 ≤ c + 1
    · simp only [quoteLoopCounts, if_pos hb]
      constructor
      · intro x hx
        rcases List.mem_singleton.mp hx with h
        omega
      · omega
    · have hc1 : c + 1 ≤ 24 := by omega
      have h := ih (c + 1) hc1
      simp only [quoteLoopCounts, if_neg hb]
      constructor
      · intro x hx
        rcases List.mem_cons.mp hx with h0 | h0
        · omega
        · exact h.1 x h0
      · exact h.2

theorem dividendLoopCounts_bounded :
    ∀ (syms : List String) (c : ℕ), c ≤ 25 →
      (∀ x ∈ (dividendLoopCounts syms c).1, x ≤ 25) ∧ (dividendLoopCounts syms c).2 ≤ 25 := by
  intro syms
  induction syms with
  | nil =>
    intro c hc
    simp only [dividendLoopCounts]
    exact ⟨(by intro x hx; cases hx), hc⟩
  | cons s rest ih =>
    intro c hc
    by_cases hb : 25 ≤ c
    · simp only [dividendLoopCounts, if_pos hb]
      exact ⟨(by intro x hx; cases hx), hc⟩
    · have hc1 : c + 1 ≤ 25 := by omega
      have h := ih (c + 1) hc1
      simp only [dividendLoopCounts, if_neg hb]
      constructor
      · intro x hx
        rcases List.mem_cons.mp hx with h0 | h0
        · omega
        · exact h.1 x h0
      · exact h.2

/-- Claim C8: throughout any run of run_comprehensive_test the request
counter never exceeds max_requests = 25: every value request_count takes
after an increment is at most 25, and so is its final value, however many
symbols are supplied. -/
theorem C8_run_comprehensive_test_request_budget (symbols : List String) :
    (∀ x ∈ (runComprehensiveTestCounts symbols).1, x ≤ 25) ∧
      (runComprehensiveTestCounts symbols).2 ≤ 25 := by
  have hq := quoteLoopCounts_bounded symbols 0 (by omega)
  unfold runComprehensiveTestCounts
  by_cases hlt : (quoteLoopCounts symbols 0).2 < 25
  · have hd := dividendLoopCounts_bounded (symbols.take 3) (quoteLoopCounts symbols 0).2
      (by omega)
    simp only [if_pos hlt]
    constructor
    · intro x hx
      rcases List.mem_append.mp hx with h0 | h0
      · exact hq.1 x h0
      · exact hd.1 x h0
    · exact hd.2
  · simp only [if_neg hlt]
    exact hq

/-! ## Claims C2 and C10 : per-script effects -/

/-- Claim C2, counterexample: ios_app_simulation_test.py fails the
conjunction the spec asserts of every script, because it issues no HTTP
request at all (it also measures no request latency); targeted_api_test.py
and validate_swift_integration.py separately fail it by writing no file. -/
theorem C2_counterexample_ios_simulation_no_http :
    claimEveryScriptIO Script.ios_app_simulation_test = false ∧
      issues_http_requests Script.ios_app_simulation_test = false ∧
      writes_local_file Script.targeted_api_test = false ∧
      writes_local_file Script.validate_swift_integration = false := by
  decide

/-- Claim C2 (amended): every script prints a formatted report, but the
other spec-asserted effects hold only of subsets: HTTP requests are issued
by the eight scripts other than ios_app_simulation_test.py and
comprehensive_historical_data_test.py (both pure simulations); results are
written to a local file by the eight scripts other than
targeted_api_test.py and validate_swift_integration.py; the latency of its
own HTTP requests is measured exactly by the five scripts
alpha_vantage_integration_test.py, alpha_vantage_performance_test.py,
direct_api_endpoint_test.py, nasdaq_api_test.py and nasdaq_load_test.py;
and every script that constructs an HTTP session object also issues
requests. -/
theorem C2_amended_script_effects (s : Script) :
    prints_report s = true
    ∧ (issues_http_requests s = true ↔
        (s ≠ Script.ios_app_simulation_test ∧
         s ≠ Script.comprehensive_historical_data_test))
    ∧ (writes_local_file s = true ↔
        (s ≠ Script.targeted_api_test ∧ s ≠ Script.validate_swift_integration))
    ∧ (measures_request_latency s = true ↔
        s ∈ [Script.alpha_vantage_integration_test,
             Script.alpha_vantage_performance_test,
             Script.direct_api_endpoint_test,
             Script.nasdaq_api_test, Script.nasdaq_load_test])
    ∧ (opens_http_session s = true → issues_http_requests s = true) := by
  cases s <;> decide

/-- Claim C10: no script reads back an artifact it writes. Every open()
call of every script passes mode "w", no script performs any file read,
and within each script the timestamped artifact name patterns are pairwise
distinct, each written by one straight-line call site that runs at most
once per run. -/
theorem C10_write_only_artifacts (s : Script) :
    (∀ op ∈ file_writes s, op.mode = "w")
    ∧ file_reads s = []
    ∧ (((file_writes s).filter fun op => op.timestamped).map FileOp.namePattern).Nodup := by
  cases s <;> decide

/-! ## Claim C9 : load-test summary arithmetic -/

theorem length_filter_partition {α : Type} (p : α → Bool) (l : List α) :
    (l.filter p).length + (l.filter fun a => !p a).length = l.length := by
  induction l with
  | nil => rfl
  | cons a t ih =>
    cases h : p a <;> simp [List.filter_cons, h] <;> omega

/-- Claim C9: for a non-empty symbol list, run_concurrent_test reports
total_requests equal to the number of submitted symbols, split exactly
into successful and failed requests, with
success_rate = successful / total * 100; run_async_test satisfies the same
equations with total_requests counting only the gathered results that are
dicts (exceptions are dropped), so its total can be smaller than the
number of submitted symbols, and its rate is 0 when no dict survives. -/
theorem C9_load_summary_counts (fetch : String → LoadRecord)
    (symbols : List String) (tt1 : ℚ)
    (gathered : List (Except String LoadRecord)) (tt2 : ℚ)
    (hne : symbols ≠ []) (hlen : gathered.length = symbols.length) :
    let s := run_concurrent_test fetch symbols tt1
    let a := run_async_test gathered tt2
    (s.total_requests = symbols.length
    ∧ s.total_requests = s.successful_requests + s.failed_requests
    ∧ s.success_rate = (s.successful_requests : ℚ) / (s.total_requests : ℚ) * 100
    ∧ a.total_requests = (validResults gathered).length
    ∧ a.total_requests ≤ symbols.length
    ∧ a.total_requests = a.successful_requests + a.failed_requests
    ∧ (validResults gathered ≠ [] →
        a.success_rate = (a.successful_requests : ℚ) / (a.total_requests : ℚ) * 100)
    ∧ (validResults gathered = [] → a.success_rate = 0)) := by
  refine ⟨?_, ?_, ?_, rfl, ?_, ?_, ?_, ?_⟩
  · simp [run_concurrent_test]
  · simp only [run_concurrent_test]
    exact (length_filter_partition (fun r => r.success) (symbols.map fetch)).symm
  · simp only [run_concurrent_test]
  · calc (run_async_test gathered tt2).total_requests
        = (validResults gathered).length := rfl
      _ ≤ gathered.length := List.length_filterMap_le _ _
      _ = symbols.length := hlen
  · simp only [run_async_test]
    exact (length_filter_partition (fun r => r.success) (validResults gathered)).symm
  · intro hv
    simp only [run_async_test]
    rw [if_neg (by simpa [List.isEmpty_iff] using hv)]
  · intro hv
    simp only [run_async_test]
    rw [if_pos (by simpa [List.isEmpty_iff] using hv)]

/-- Claim C9, witness at a concrete two-symbol run in which one async
result is an exception. -/
theorem C9_witness_counts :
    let s := run_concurrent_test
      (fun sym => { symbol := sym, success := true, response_time := 1 }) ["AAPL", "MSFT"] 1
    let a := run_async_test
      [Except.ok { symbol := "AAPL", success := true, response_time := 1 },
       Except.error "Timeout"] 1
    (s.total_requests = ["AAPL", "MSFT"].length
    ∧ s.total_requests = s.successful_requests + s.failed_requests
    ∧ s.success_rate = (s.successful_requests : ℚ) / (s.total_requests : ℚ) * 100
    ∧ a.total_requests = (validResults
        [Except.ok { symbol := "AAPL", success := true, response_time := 1 },
         Except.error "Timeout"]).length
    ∧ a.total_requests ≤ ["AAPL", "MSFT"].length
    ∧ a.total_requests = a.successful_requests + a.failed_requests
    ∧ (validResults
        [Except.ok { symbol := "AAPL", success := true, response_time := 1 },
         Except.error "Timeout"] ≠ [] →
        a.success_rate = (a.successful_requests : ℚ) / (a.total_requests : ℚ) * 100)
    ∧ (validResults
        [Except.ok { symbol := "AAPL", success := true, response_time := 1 },
         Except.error "Timeout"] = [] → a.success_rate = 0)) :=
  C9_load_summary_counts
    (fun sym => { symbol := sym, success := true, response_time := 1 }) ["AAPL", "MSFT"] 1
    [Except.ok { symbol := "AAPL", success := true, response_time := 1 },
     Except.error "Timeout"] 1
    (by decide) (by decide)

/-! ## Claim C3 : exceptions are converted, one request per call -/

theorem fetch_stock_quote_sync_failure_has_error (net : NasdaqNet) (symbol : String)
    (rt : ℚ) (h : (fetch_stock_quote_sync net symbol rt).success = false) :
    (fetch_stock_quote_sync net symbol rt).error.isSome = true := by
  cases net with
  | exn e => rfl
  | resp st text body =>
    by_cases hst : st = 200
    · subst hst
      cases body with
      | error e => simp [fetch_stock_quote_sync]
      | ok d =>
        by_cases hr : d.rCode = some 200
        · rcases hp : parseFloat (stripMoney (d.lastSalePrice.getD "$0")) with _ | q
          · simp [fetch_stock_quote_sync, hr, hp]
          · simp [fetch_stock_quote_sync, hr, hp] at h
        · simp [fetch_stock_quote_sync, hr]
    · simp [fetch_stock_quote_sync, hst]

theorem test_stock_quote_failure_has_error (net : NasdaqNet) (symbol : String)
    (rt : ℚ) (h : (test_stock_quote net symbol rt).success = false) :
    (test_stock_quote net symbol rt).error_message.isSome = true := by
  cases net with
  | exn e => rfl
  | resp st text body =>
    by_cases hst : st = 200
    · subst hst
      cases body with
      | error e => simp [test_stock_quote]
      | ok d =>
        by_cases hr : d.rCode = some 200
        · by_cases hps : stripMoney (d.lastSalePrice.getD "$0") = ""
          · simp [test_stock_quote, hr, hps] at h
          · rcases hp : parseFloat (stripMoney (d.lastSalePrice.getD "$0")) with _ | q
            · simp [test_stock_quote, hr, hps, hp]
            · simp [test_stock_quote, hr, hps, hp] at h
        · simp [test_stock_quote, hr]
    · simp [test_stock_quote, hst]

theorem test_global_quote_failure_has_error (net : AVNet) (symbol : String)
    (rt : ℚ) (h : (test_global_quote net symbol rt).success = false) :
    (test_global_quote net symbol rt).error.isSome = true := by
  cases net with
  | timeout => rfl
  | exn e => rfl
  | resp st body =>
    by_cases hst : st = 200
    · subst hst
      rcases body with e | _ | ⟨_ | ⟨e0, es⟩⟩
      · simp [test_global_quote]
      · simp [test_global_quote]
      · simp [test_global_quote]
      · rcases hp : dictGet (e0 :: es) "05. price" with _ | ps
        · simp [test_global_quote, hp] at h
        · by_cases hemp : ps = ""
          · simp [test_global_quote, hp, hemp] at h
          · rcases hq : parseFloat ps with _ | q
            · simp [test_global_quote, hp, hemp, hq]
            · simp [test_global_quote, hp, hemp, hq] at h
    · simp [test_global_quote, hst]

/-- Claim C3: the per-request fetch functions never propagate an exception
and never retry. An exception e while issuing the request yields exactly
the failure record carrying str(e) (for test_global_quote prefixed with
"Exception: "); an exception while parsing the JSON body of a 200 response
is converted the same way; every failure record carries an error string;
and each call reads exactly the first outcome of the request stream, so two
streams that agree on their first outcome give identical results. -/
theorem C3_fetch_functions_convert_exceptions
    (e symbol text : String) (rt : ℚ)
    (nets nets2 : ℕ → NasdaqNet) (anets anets2 : ℕ → AVNet)
    (hn : nets 0 = nets2 0) (han : anets 0 = anets2 0) :
    (fetch_stock_quote_sync (NasdaqNet.exn e) symbol rt =
      { symbol := symbol, success := false, response_time := rt, error := some e })
    ∧ (test_stock_quote (NasdaqNet.exn e) symbol rt =
      { symbol := symbol, success := false, response_time := rt, error_message := some e })
    ∧ (test_global_quote (AVNet.exn e) symbol rt =
      { success := false, symbol := symbol, error := some ("Exception: " ++ e),
        response_time_ms := none })
    ∧ (fetch_stock_quote_sync (NasdaqNet.resp 200 text (Except.error e)) symbol rt =
      { symbol := symbol, success := false, response_time := rt, error := some e })
    ∧ (test_stock_quote (NasdaqNet.resp 200 text (Except.error e)) symbol rt =
      { symbol := symbol, success := false, response_time := rt, error_message := some e })
    ∧ (test_global_quote (AVNet.resp 200 (Except.error e)) symbol rt =
      { success := false, symbol := symbol, error := some ("Exception: " ++ e),
        response_time_ms := none })
    ∧ (∀ net, (fetch_stock_quote_sync net symbol rt).success = false →
        (fetch_stock_quote_sync net symbol rt).error.isSome = true)
    ∧ (∀ net, (test_stock_quote net symbol rt).success = false →
        (test_stock_quote net symbol rt).error_message.isSome = true)
    ∧ (∀ net, (test_global_quote net symbol rt).success = false →
        (test_global_quote net symbol rt).error.isSome = true)
    ∧ fetch_stock_quote_sync_run nets symbol rt = fetch_stock_quote_sync_run nets2 symbol rt
    ∧ test_stock_quote_run nets symbol rt = test_stock_quote_run nets2 symbol rt
    ∧ test_global_quote_run anets symbol rt = test_global_quote_run anets2 symbol rt := by
  refine ⟨rfl, rfl, rfl, by simp [fetch_stock_quote_sync], by simp [test_stock_quote],
    by simp [test_global_quote], ?_, ?_, ?_, ?_, ?_, ?_⟩
  · exact fun net => fetch_stock_quote_sync_failure_has_error net symbol rt
  · exact fun net => test_stock_quote_failure_has_error net symbol rt
  · exact fun net => test_global_quote_failure_has_error net symbol rt
  · unfold fetch_stock_quote_sync_run
    rw [hn]
  · unfold test_stock_quote_run
    rw [hn]
  · unfold test_global_quote_run
    rw [han]

/-- Claim C3, witness at concrete inputs: a request exception on one side
and equal first stream outcomes on the other. -/
theorem C3_witness_convert_exceptions :
    (fetch_stock_quote_sync (NasdaqNet.exn "Connection refused") "AAPL" 1 =
      { symbol := "AAPL", success := false, response_time := 1,
        error := some "Connection refused" })
    ∧ (test_stock_quote (NasdaqNet.exn "Connection refused") "AAPL" 1 =
      { symbol := "AAPL", success := false, response_time := 1,
        error_message := some "Connection refused" })
    ∧ (test_global_quote (AVNet.exn "Connection refused") "AAPL" 1 =
      { success := false, symbol := "AAPL",
        error := some ("Exception: " ++ "Connection refused"),
        response_time_ms := none })
    ∧ (fetch_stock_quote_sync (NasdaqNet.resp 200 "" (Except.error "Connection refused")) "AAPL" 1 =
      { symbol := "AAPL", success := false, response_time := 1, error := some "Connection refused" })
    ∧ (test_stock_quote (NasdaqNet.resp 200 "" (Except.error "Connection refused")) "AAPL" 1 =
      { symbol := "AAPL", success := false, response_time := 1,
        error_message := some "Connection refused" })
    ∧ (test_global_quote (AVNet.resp 200 (Except.error "Connection refused")) "AAPL" 1 =
      { success := false, symbol := "AAPL", error := some ("Exception: " ++ "Connection refused"),
        response_time_ms := none })
    ∧ (∀ net, (fetch_stock_quote_sync net "AAPL" 1).success = false →
        (fetch_stock_quote_sync net "AAPL" 1).error.isSome = true)
    ∧ (∀ net, (test_stock_quote net "AAPL" 1).success = false →
        (test_stock_quote net "AAPL" 1).error_message.isSome = true)
    ∧ (∀ net, (test_global_quote net "AAPL" 1).success = false →
        (test_global_quote net "AAPL" 1).error.isSome = true)
    ∧ fetch_stock_quote_sync_run (fun _ => NasdaqNet.exn "x") "AAPL" 1 =
        fetch_stock_quote_sync_run (fun _ => NasdaqNet.exn "x") "AAPL" 1
    ∧ test_stock_quote_run (fun _ => NasdaqNet.exn "x") "AAPL" 1 =
        test_stock_quote_run (fun _ => NasdaqNet.exn "x") "AAPL" 1
    ∧ test_global_quote_run (fun _ => AVNet.timeout) "AAPL" 1 =
        test_global_quote_run (fun _ => AVNet.timeout) "AAPL" 1 :=
  C3_fetch_functions_convert_exceptions "Connection refused" "AAPL" "" 1
    (fun _ => NasdaqNet.exn "x") (fun _ => NasdaqNet.exn "x")
    (fun _ => AVNet.timeout) (fun _ => AVNet.timeout) rfl rfl

/-! ## Claim C6 : success condition of test_stock_quote -/

/-- Claim C6, counterexample: with HTTP status 200 and rCode 200 but a
lastSalePrice of "N/A", float() raises inside the try block and
test_stock_quote returns success false, so success is not equivalent to
status 200 together with rCode 200. -/
theorem C6_counterexample_unparseable_price :
    (test_stock_quote
      (NasdaqNet.resp 200 ""
        (Except.ok
          { rCode := some 200, message := none, companyName := none,
            lastSalePrice := some "N/A" })) "AAPL" 1).success = false
    ∧ NasdaqData.rCode
        { rCode := some 200, message := none, companyName := none,
          lastSalePrice := some "N/A" } = some 200 := by
  decide

/-- Claim C6 (amended): test_stock_quote returns success true if and only
if the HTTP status is 200, the JSON parses, status.rCode equals 200, and
the lastSalePrice string with dollar signs and commas removed is either
empty or parses as a decimal number. On every 200-rCode-200 response the
returned price is exactly the parse of that cleaned string (None when it
is empty or when parsing fails, the latter with success false); a missing
lastSalePrice defaults to the string dollar-zero and yields price 0.0 with
success still true. -/
theorem C6_amended_test_stock_quote_success (net : NasdaqNet) (symbol : String) (rt : ℚ) :
    let r := test_stock_quote net symbol rt
    ((r.success = true ↔ ∃ status text d,
        net = NasdaqNet.resp status text (Except.ok d) ∧ status = 200 ∧
        d.rCode = some 200 ∧
        (stripMoney (d.lastSalePrice.getD "$0") = "" ∨
          (parseFloat (stripMoney (d.lastSalePrice.getD "$0"))).isSome = true))
    ∧ (∀ text d, net = NasdaqNet.resp 200 text (Except.ok d) → d.rCode = some 200 →
        r.price = parseFloat (stripMoney (d.lastSalePrice.getD "$0")))
    ∧ (∀ text rc msg cn,
        net = NasdaqNet.resp 200 text
          (Except.ok { rCode := rc, message := msg, companyName := cn,
                       lastSalePrice := none }) →
        rc = some 200 → r.success = true ∧ r.price = some 0)) := by
  cases net with
  | exn e =>
    refine ⟨⟨?_, ?_⟩, ?_, ?_⟩
    · intro h
      cases h
    · rintro ⟨st, text, d, heq, _⟩
      cases heq
    · intro text d heq
      cases heq
    · intro text rc msg cn heq
      cases heq
  | resp st text0 body =>
    by_cases hst : st = 200
    · subst hst
      cases body with
      | error e =>
        refine ⟨⟨?_, ?_⟩, ?_, ?_⟩
        · intro h
          simp [test_stock_quote] at h
        · rintro ⟨st1, text1, d, heq, _⟩
          cases heq
        · intro text1 d heq
          cases heq
        · intro text1 rc msg cn heq
          cases heq
      | ok d =>
        by_cases hr : d.rCode = some 200
        · by_cases hps : stripMoney (d.lastSalePrice.getD "$0") = ""
          · refine ⟨⟨?_, ?_⟩, ?_, ?_⟩
            · intro _
              exact ⟨200, text0, d, rfl, rfl, hr, Or.inl hps⟩
            · intro _
              simp [test_stock_quote, hr, hps]
            · intro text1 d1 heq
              cases heq
              intro _
              have hpf : parseFloat "" = none := by decide
              simp [test_stock_quote, hr, hps, hpf]
            · intro text1 rc msg cn heq
              cases heq
              have hps2 : stripMoney ((none : Option String).getD "$0") = "" := hps
              exact absurd hps2 (by decide)
          · rcases hp : parseFloat (stripMoney (d.lastSalePrice.getD "$0")) with _ | q
            · refine ⟨⟨?_, ?_⟩, ?_, ?_⟩
              · intro h
                simp [test_stock_quote, hr, hps, hp] at h
              · rintro ⟨st1, text1, d1, heq, _, hrc1, hgood⟩
                cases heq
                rcases hgood with hgood | hgood
                · exact absurd hgood hps
                · rw [hp] at hgood
                  cases hgood
              · intro text1 d1 heq
                cases heq
                intro _
                simp [test_stock_quote, hr, hps, hp]
              · intro text1 rc msg cn heq
                cases heq
                have hp2 : parseFloat (stripMoney ((none : Option String).getD "$0")) = none := hp
                exact absurd hp2 (by decide)
            · refine ⟨⟨?_, ?_⟩, ?_, ?_⟩
              · intro _
                exact ⟨200, text0, d, rfl, rfl, hr, Or.inr (by rw [hp]; rfl)⟩
              · intro _
                simp [test_stock_quote, hr, hps, hp]
              · intro text1 d1 heq
                cases heq
                intro _
                simp [test_stock_quote, hr, hps, hp]
              · intro text1 rc msg cn heq
                cases heq
                intro hrc
                subst hrc
                have h0 : parseFloat (stripMoney "$0") = some (0 : ℚ) := by decide
                have hne0 : ¬stripMoney "$0" = "" := by decide
                constructor
                · simp [test_stock_quote, hne0, h0]
                · simp [test_stock_quote, hne0, h0]
        · refine ⟨⟨?_, ?_⟩, ?_, ?_⟩
          · intro h
            simp [test_stock_quote, hr] at h
          · rintro ⟨st1, text1, d1, heq, _, hrc1, _⟩
            cases heq
            exact absurd hrc1 hr
          · intro text1 d1 heq
            cases heq
            intro hrc1
            exact absurd hrc1 hr
          · intro text1 rc msg cn heq
            cases heq
            intro hrc
            exact absurd (by simpa using hrc) hr
    · refine ⟨⟨?_, ?_⟩, ?_, ?_⟩
      · intro h
        simp [test_stock_quote, hst] at h
      · rintro ⟨st1, text1, d1, heq, hst1, _⟩
        cases heq
        exact absurd hst1 hst
      · intro text1 d1 heq
        cases heq
        exact absurd rfl hst
      · intro text1 rc msg cn heq
        cases heq
        exact absurd rfl hst

/-! ## Claim C5 : success condition of test_global_quote -/

/-- Claim C5, counterexample: with status 200 and a non-empty Global Quote
dict whose "05. price" value is "N/A", float() raises and
test_global_quote returns success false although the status is 200 and
the Global Quote is non-empty; single_request_test, which parses no price,
returns success true on the very same response. -/
theorem C5_counterexample_unparseable_price :
    (test_global_quote
      (AVNet.resp 200 (Except.ok (some [("05. price", "N/A")]))) "AAPL" 100).success = false
    ∧ truthyGQ (some [("05. price", "N/A")]) = true
    ∧ (single_request_test
        (AVNet.resp 200 (Except.ok (some [("05. price", "N/A")])))
        "AAPL" "GLOBAL_QUOTE" 100).success = true := by
  decide

/-- Claim C5 (amended): test_global_quote returns success true exactly when
the HTTP status is 200, the body parses to JSON containing a non-empty
"Global Quote" dict, and any present non-empty "05. price" value parses as
a decimal number; every other case returns success false together with an
error string. In single_request_test, which parses no price, success is
exactly status 200 together with a truthy "Global Quote" value whenever
the body parses, and false on timeout or exception. -/
theorem C5_amended_global_quote_success (net : AVNet) (symbol fnName : String) (rt : ℚ) :
    let r := test_global_quote net symbol rt
    let p := single_request_test net symbol fnName rt
    ((r.success = true ↔ ∃ gq, net = AVNet.resp 200 (Except.ok (some gq)) ∧ gq ≠ [] ∧
        (∀ ps, dictGet gq "05. price" = some ps →
          ps = "" ∨ (parseFloat ps).isSome = true))
    ∧ (r.success = false → r.error.isSome = true)
    ∧ (p.success = true ↔ ∃ d, net = AVNet.resp 200 (Except.ok d) ∧ truthyGQ d = true)) := by
  refine ⟨?_, ?_, ?_⟩
  · cases net with
    | timeout =>
      constructor
      · intro h
        cases h
      · rintro ⟨gq, heq, _⟩
        cases heq
    | exn e =>
      constructor
      · intro h
        cases h
      · rintro ⟨gq, heq, _⟩
        cases heq
    | resp st body =>
      by_cases hst : st = 200
      · subst hst
        rcases body with e | _ | ⟨_ | ⟨e0, es⟩⟩
        · constructor
          · intro h
            simp [test_global_quote] at h
          · rintro ⟨gq, heq, _⟩
            cases heq
        · constructor
          · intro h
            simp [test_global_quote] at h
          · rintro ⟨gq, heq, _⟩
            cases heq
        · constructor
          · intro h
            simp [test_global_quote] at h
          · rintro ⟨gq, heq, hne1, _⟩
            cases heq
            exact absurd rfl hne1
        · rcases hp : dictGet (e0 :: es) "05. price" with _ | ps
          · constructor
            · intro _
              refine ⟨e0 :: es, rfl, by simp, ?_⟩
              intro ps hps
              rw [hp] at hps
              cases hps
            · intro _
              simp [test_global_quote, hp]
          · by_cases hemp : ps = ""
            · subst hemp
              constructor
              · intro _
                refine ⟨e0 :: es, rfl, by simp, ?_⟩
                intro ps1 hps1
                rw [hp] at hps1
                cases hps1
                exact Or.inl rfl
              · intro _
                simp [test_global_quote, hp]
            · rcases hq : parseFloat ps with _ | q
              · constructor
                · intro h
                  simp [test_global_quote, hp, hemp, hq] at h
                · rintro ⟨gq, heq, _, hgood⟩
                  cases heq
                  rcases hgood ps hp with h1 | h1
                  · exact absurd h1 hemp
                  · rw [hq] at h1
                    cases h1
              · constructor
                · intro _
                  refine ⟨e0 :: es, rfl, by simp, ?_⟩
                  intro ps1 hps1
                  rw [hp] at hps1
                  cases hps1
                  exact Or.inr (by rw [hq]; rfl)
                · intro _
                  simp [test_global_quote, hp, hemp, hq]
      · constructor
        · intro h
          simp [test_global_quote, hst] at h
        · rintro ⟨gq, heq, _⟩
          cases heq
          exact absurd rfl hst
  · exact fun h => test_global_quote_failure_has_error net symbol rt h
  · cases net with
    | timeout =>
      constructor
      · intro h
        cases h
      · rintro ⟨d, heq, _⟩
        cases heq
    | exn e =>
      constructor
      · intro h
        cases h
      · rintro ⟨d, heq, _⟩
        cases heq
    | resp st body =>
      cases body with
      | error e =>
        constructor
        · intro h
          cases h
        · rintro ⟨d, heq, _⟩
          cases heq
      | ok d =>
        by_cases hst : st = 200
        · subst hst
          constructor
          · intro h
            simp only [single_request_test, Bool.and_eq_true, decide_eq_true_eq] at h
            exact ⟨d, rfl, h.2⟩
          · rintro ⟨d1, heq, htr⟩
            cases heq
            simp [single_request_test, htr]
        · constructor
          · intro h
            simp only [single_request_test, Bool.and_eq_true, decide_eq_true_eq] at h
            exact absurd h.1 hst
          · rintro ⟨d1, heq, _⟩
            cases heq
            exact absurd rfl hst

/-! ## Claim C1 : failover order and outcome -/

theorem failoverLoop_spec (symbol : String) (days : ℕ) (today : ℤ) (rng : ℕ → ℚ) :
    ∀ (ps : List ProviderConfig) (sm : StatsMap) (k : ℕ) (last : ℚ),
      (failoverLoop symbol days today rng ps sm k last).2.2.map Attempt.provider =
        (ps.map ProviderConfig.name).take
          (failoverLoop symbol days today rng ps sm k last).2.2.length
      ∧ (∀ a ∈ (failoverLoop symbol days today rng ps sm k last).2.2.dropLast,
          a.outcome ≠ TestOutcome.SUCCESS)
      ∧ (ps ≠ [] → (failoverLoop symbol days today rng ps sm k last).2.2 ≠ [])
      ∧ (match (failoverLoop symbol days today rng ps sm k last).2.2.getLast? with
         | some a =>
           (a.outcome = TestOutcome.SUCCESS →
             (failoverLoop symbol days today rng ps sm k last).1 =
               (TestOutcome.SUCCESS, a.data, a.provider, a.response_time))
           ∧ (a.outcome ≠ TestOutcome.SUCCESS →
             (failoverLoop symbol days today rng ps sm k last).2.2.length = ps.length ∧
             (failoverLoop symbol days today rng ps sm k last).1 =
               (TestOutcome.FAILURE, [], "None", a.response_time))
         | none =>
           (failoverLoop symbol days today rng ps sm k last).1 =
             (TestOutcome.FAILURE, [], "None", last)) := by
  intro ps
  induction ps with
  | nil =>
    intro sm k last
    refine ⟨rfl, ?_, ?_, ?_⟩
    · intro a ha
      cases ha
    · intro h
      exact absurd rfl h
    · exact rfl
  | cons c rest ih =>
    intro sm k last
    simp only [failoverLoop]
    generalize simulate_api_call c ((dictGet sm c.name).getD (initStats c.name))
      symbol days today rng k = r
    by_cases hout : r.1.1 = TestOutcome.SUCCESS
    · simp only [if_pos hout]
      refine ⟨by simp, ?_, ?_, ?_⟩
      · intro a ha
        simp at ha
      · intro _
        simp
      · constructor
        · intro _
          simp [hout]
        · intro hne2
          exact absurd hout hne2
    · simp only [if_neg hout]
      have IH := ih (dictSet sm c.name (failStats r.2.1 r.1.2.2)) r.2.2 r.1.2.2
      rcases IH with ⟨IH1, IH2, IH3, IH4⟩
      rcases hts : (failoverLoop symbol days today rng rest
          (dictSet sm c.name (failStats r.2.1 r.1.2.2)) r.2.2 r.1.2.2).2.2 with _ | ⟨a2, t2⟩
      · -- the recursive trace is empty, so rest is empty
        have hrest : rest = [] := by
          by_contra hr0
          exact absurd hts (IH3 hr0)
        rw [hts] at IH1 IH4
        refine ⟨by simp [hrest], ?_, ?_, ?_⟩
        · intro a ha
          simp at ha
        · intro _
          simp
        · constructor
          · intro hS
            exact absurd hS hout
          · intro _
            exact ⟨by simp [hrest], IH4⟩
      · -- the recursive trace is non-empty
        rw [hts] at IH1 IH2 IH3 IH4
        refine ⟨?_, ?_, ?_, ?_⟩
        · simp only [List.map_cons, List.length_cons, List.take_succ_cons] at IH1 ⊢
          rw [IH1]
        · intro a ha
          rw [List.dropLast_cons₂] at ha
          rcases List.mem_cons.mp ha with h0 | h0
          · subst h0
            exact hout
          · exact IH2 a h0
        · intro _
          simp
        · rw [List.getLast?_cons_cons]
          rcases hlast : (a2 :: t2).getLast? with _ | aL
          · simp at hlast
          · rw [hlast] at IH4
            constructor
            · intro hS
              exact IH4.1 hS
            · intro hns
              refine ⟨?_, (IH4.2 hns).2⟩
              have hlen := (IH4.2 hns).1
              simp only [List.length_cons] at hlen ⊢
              omega

/-- Claim C1: fetch_with_failover attempts providers in ascending priority
order, Yahoo Finance then EODHD then Finnhub, stopping at the first
provider whose simulated call returns SUCCESS and returning that call's
outcome, data, provider name and response time; a rate-limited provider,
like any other failure, is followed by the next provider, and when no
provider succeeds all three are attempted and the function returns
FAILURE, an empty data list, provider name "None", and the response time
of the last provider attempted. -/
theorem C1_fetch_with_failover_priority_first_success
    (symbol : String) (days : ℕ) (today : ℤ) (rng : ℕ → ℚ) (sm : StatsMap) :
    sortByPriority providers = [yahooFinance, eodhd, finnhub]
    ∧ (fetch_with_failover symbol days today rng sm).2.2.map Attempt.provider =
        (["Yahoo Finance", "EODHD", "Finnhub"]).take
          (fetch_with_failover symbol days today rng sm).2.2.length
    ∧ (∀ a ∈ (fetch_with_failover symbol days today rng sm).2.2.dropLast,
        a.outcome ≠ TestOutcome.SUCCESS)
    ∧ (fetch_with_failover symbol days today rng sm).2.2 ≠ []
    ∧ (match (fetch_with_failover symbol days today rng sm).2.2.getLast? with
       | some a =>
         (a.outcome = TestOutcome.SUCCESS →
           (fetch_with_failover symbol days today rng sm).1 =
             (TestOutcome.SUCCESS, a.data, a.provider, a.response_time))
         ∧ (a.outcome ≠ TestOutcome.SUCCESS →
           (fetch_with_failover symbol days today rng sm).2.2.length = 3 ∧
           (fetch_with_failover symbol days today rng sm).1 =
             (TestOutcome.FAILURE, [], "None", a.response_time))
       | none => True) := by
  have hs : sortByPriority providers = [yahooFinance, eodhd, finnhub] := by decide
  have H := failoverLoop_spec symbol days today rng (sortByPriority providers) sm 0 0
  rw [hs] at H
  have hnames : [yahooFinance, eodhd, finnhub].map ProviderConfig.name =
      ["Yahoo Finance", "EODHD", "Finnhub"] := rfl
  rw [hnames] at H
  have hfe : fetch_with_failover symbol days today rng sm =
      failoverLoop symbol days today rng [yahooFinance, eodhd, finnhub] sm 0 0 := by
    unfold fetch_with_failover
    rw [hs]
  rw [hfe]
  rcases H with ⟨H1, H2, H3, H4⟩
  refine ⟨hs, H1, H2, H3 (by simp), ?_⟩
  rcases hl : (failoverLoop symbol days today rng [yahooFinance, eodhd, finnhub]
      sm 0 0).2.2.getLast? with _ | a
  · exact trivial
  · rw [hl] at H4
    exact ⟨H4.1, fun hns => ⟨(H4.2 hns).1, (H4.2 hns).2⟩⟩
